import Mathlib

/-!
Verification of the Pong game in `pong/pong_game.py`.

The game state is embedded shallowly: positions, velocities and sizes are
integers (Python `int` arithmetic), the drawing layer (`graphics` objects,
`undraw`, text) carries no game state and is omitted, and the one use of
randomness (`random.choice([-3, 3])` in `Ball.__init__`) is threaded as an
explicit boolean choice parameter.
-/

/-- The ball: position `(x, y)`, `radius`, velocity `(dx, dy)`.
Mirrors the non-visual attributes set in `Ball.__init__`. -/
structure Ball where
  x : Int
  y : Int
  radius : Int
  dx : Int
  dy : Int
  deriving Repr, DecidableEq

namespace Ball

/-- `Ball.__init__`: `dx = random.choice([-3, 3])` is modelled by the
explicit `choice` argument; `dy = 3`. -/
def init (x y radius : Int) (choice : Bool) : Ball :=
  { x := x, y := y, radius := radius, dx := if choice then 3 else -3, dy := 3 }

/-- `Ball.move`: advance position by the current velocity. -/
def move (b : Ball) : Ball :=
  { b with x := b.x + b.dx, y := b.y + b.dy }

/-- `Ball.bounce_horizontal`: negate `dx`. -/
def bounce_horizontal (b : Ball) : Ball :=
  { b with dx := -b.dx }

/-- `Ball.bounce_vertical`: negate `dy`. -/
def bounce_vertical (b : Ball) : Ball :=
  { b with dy := -b.dy }

/-- `Ball.check_wall_collision(width, height)`: three sequential checks
(left wall, right wall, top wall), each clamping the position and bouncing.
The `height` parameter is accepted but, as in the source, never used:
there is no bottom-wall check. -/
def check_wall_collision (b : Ball) (width height : Int) : Ball :=
  let b1 := if b.x - b.radius ≤ 0 then (Ball.bounce_horizontal { b with x := b.radius }) else b
  let b2 := if b1.x + b1.radius ≥ width then (Ball.bounce_horizontal { b1 with x := width - b1.radius }) else b1
  let b3 := if b2.y - b2.radius ≤ 0 then (Ball.bounce_vertical { b2 with y := b2.radius }) else b2
  b3

/-- `Ball.is_below_screen(height)`: the ball fell past the bottom edge. -/
def is_below_screen (b : Ball) (height : Int) : Bool :=
  b.y > height

end Ball

/-- The operations of `Ball` that the game loop may apply to a ball,
used to quantify over arbitrary sequences of ball operations. -/
inductive BallOp where
  | move : BallOp
  | bounce_horizontal : BallOp
  | bounce_vertical : BallOp
  | wall (width height : Int) : BallOp
  deriving Repr, DecidableEq

/-- Apply one `Ball` operation. -/
def applyBallOp (b : Ball) : BallOp → Ball
  | .move => b.move
  | .bounce_horizontal => b.bounce_horizontal
  | .bounce_vertical => b.bounce_vertical
  | .wall w h => b.check_wall_collision w h

/-- Apply a sequence of `Ball` operations, left to right. -/
def applyBallOps (b : Ball) (ops : List BallOp) : Ball :=
  ops.foldl applyBallOp b

lemma applyBallOp_dx_natAbs (b : Ball) (op : BallOp) :
    (applyBallOp b op).dx.natAbs = b.dx.natAbs := by
  cases op with
  | move => rfl
  | bounce_horizontal => simp [applyBallOp, Ball.bounce_horizontal]
  | bounce_vertical => rfl
  | wall w h =>
      simp only [applyBallOp, Ball.check_wall_collision, Ball.bounce_horizontal,
        Ball.bounce_vertical]
      split <;> split <;> split <;> simp

lemma applyBallOp_dy_natAbs (b : Ball) (op : BallOp) :
    (applyBallOp b op).dy.natAbs = b.dy.natAbs := by
  cases op with
  | move => rfl
  | bounce_horizontal => rfl
  | bounce_vertical => simp [applyBallOp, Ball.bounce_vertical]
  | wall w h =>
      simp only [applyBallOp, Ball.check_wall_collision, Ball.bounce_horizontal,
        Ball.bounce_vertical]
      split <;> split <;> split <;> simp

lemma applyBallOps_natAbs (ops : List BallOp) (b : Ball) :
    (applyBallOps b ops).dx.natAbs = b.dx.natAbs ∧
    (applyBallOps b ops).dy.natAbs = b.dy.natAbs := by
  induction ops generalizing b with
  | nil => exact ⟨rfl, rfl⟩
  | cons op rest ih =>
      have h := ih (applyBallOp b op)
      simpa [applyBallOps, applyBallOp_dx_natAbs, applyBallOp_dy_natAbs] using h

/-- C7: over every sequence of `move`, `bounce_horizontal`, `bounce_vertical`
and `check_wall_collision` operations, the magnitudes `|dx|` and `|dy|`
of the ball's velocity stay at their initial values; bounces change
only the sign of one component. -/
theorem ball_speed_magnitudes_invariant (b : Ball) (ops : List BallOp) :
    (applyBallOps b ops).dx.natAbs = b.dx.natAbs ∧
    (applyBallOps b ops).dy.natAbs = b.dy.natAbs :=
  applyBallOps_natAbs ops b

/-- C6: `check_wall_collision` reflects at the left, right and top
boundaries only, clamping the position to the boundary and negating the
matching velocity component; it never reflects at the bottom boundary
(whenever the ball is clear of the top, `y` and `dy` are untouched, no
matter how far down the ball is); and on the concrete scenario of a ball
at `(2, 300)` with radius `10` and `dx = -3`, the call with `(800, 600)`
sets `x` to `10` and `dx` to `+3`. -/
theorem check_wall_collision_reflects_left_right_top_only :
    ((Ball.check_wall_collision ⟨2, 300, 10, -3, 3⟩ 800 600).x = 10 ∧
     (Ball.check_wall_collision ⟨2, 300, 10, -3, 3⟩ 800 600).dx = 3 ∧
     (Ball.check_wall_collision ⟨2, 300, 10, -3, 3⟩ 800 600).y = 300 ∧
     (Ball.check_wall_collision ⟨2, 300, 10, -3, 3⟩ 800 600).dy = 3) ∧
    ∀ (b : Ball) (w h : Int),
      (0 < b.y - b.radius →
        (b.check_wall_collision w h).y = b.y ∧ (b.check_wall_collision w h).dy = b.dy) ∧
      (b.x - b.radius ≤ 0 → 2 * b.radius < w →
        (b.check_wall_collision w h).x = b.radius ∧
        (b.check_wall_collision w h).dx = -b.dx) ∧
      (0 < b.x - b.radius → b.x + b.radius ≥ w →
        (b.check_wall_collision w h).x = w - b.radius ∧
        (b.check_wall_collision w h).dx = -b.dx) ∧
      (b.y - b.radius ≤ 0 →
        (b.check_wall_collision w h).dy = -b.dy ∧
        (b.check_wall_collision w h).y = b.radius) ∧
      (0 < b.x - b.radius → b.x + b.radius < w → 0 < b.y - b.radius →
        b.check_wall_collision w h = b) := by
  constructor
  · refine ⟨by decide, by decide, by decide, by decide⟩
  · intro b w h
    refine ⟨?_, ?_, ?_, ?_, ?_⟩
    · intro hy
      simp only [Ball.check_wall_collision, Ball.bounce_horizontal, Ball.bounce_vertical]
      split <;> split <;> (try split) <;> simp_all <;> omega
    · intro hx hw
      simp only [Ball.check_wall_collision, Ball.bounce_horizontal, Ball.bounce_vertical]
      split <;> split <;> (try split) <;> simp_all <;> omega
    · intro hx hr
      simp only [Ball.check_wall_collision, Ball.bounce_horizontal, Ball.bounce_vertical]
      split <;> split <;> (try split) <;> simp_all <;> omega
    · intro hy
      simp only [Ball.check_wall_collision, Ball.bounce_horizontal, Ball.bounce_vertical]
      split <;> split <;> (try split) <;> simp_all <;> omega
    · intro hx hr hy
      simp only [Ball.check_wall_collision, Ball.bounce_horizontal, Ball.bounce_vertical]
      split <;> split <;> (try split) <;> simp_all <;> omega

/-- Witness for C6: the no-bottom and left-wall conjuncts at the concrete
scenario ball `(2, 300)` with radius `10` in a `800 × 600` playfield, and
the top-wall clamp at a ball at `(400, 5)` with radius `10`, whose `y` is
clamped to `10`. -/
theorem check_wall_collision_reflects_left_right_top_only_witness :
    (Ball.check_wall_collision ⟨2, 300, 10, -3, 3⟩ 800 600).y = 300 ∧
    (Ball.check_wall_collision ⟨2, 300, 10, -3, 3⟩ 800 600).x = 10 ∧
    (Ball.check_wall_collision ⟨400, 5, 10, 3, -3⟩ 800 600).y = 10 ∧
    (Ball.check_wall_collision ⟨400, 5, 10, 3, -3⟩ 800 600).dy = 3 :=
  ⟨((check_wall_collision_reflects_left_right_top_only.2 ⟨2, 300, 10, -3, 3⟩ 800 600).1
      (by decide)).1,
    check_wall_collision_reflects_left_right_top_only.1.1,
    ((check_wall_collision_reflects_left_right_top_only.2 ⟨400, 5, 10, 3, -3⟩ 800 600).2.2.2.1
      (by decide)).2,
    ((check_wall_collision_reflects_left_right_top_only.2 ⟨400, 5, 10, 3, -3⟩ 800 600).2.2.2.1
      (by decide)).1⟩

/-- C2: after wall-collision resolution, whenever the ball is not below
the bottom edge (`is_below_screen` is false) and its radius is sane
(`0 ≤ radius ≤ width`), its position lies within `[0, width] × [0, height]`. -/
theorem ball_position_in_bounds_after_wall_collision
    (b : Ball) (w h : Int) (hr0 : 0 ≤ b.radius) (hrw : b.radius ≤ w)
    (hbelow : (b.check_wall_collision w h).is_below_screen h = false) :
    0 ≤ (b.check_wall_collision w h).x ∧ (b.check_wall_collision w h).x ≤ w ∧
    0 ≤ (b.check_wall_collision w h).y ∧ (b.check_wall_collision w h).y ≤ h := by
  have hb : ¬ ((b.check_wall_collision w h).y > h) := by
    simpa [Ball.is_below_screen] using hbelow
  revert hb
  simp only [Ball.check_wall_collision, Ball.bounce_horizontal, Ball.bounce_vertical]
  split <;> split <;> (try split) <;> simp_all <;> omega

/-- Witness for C2: the ball at `(2, 300)` with radius `10` in an
`800 × 600` playfield satisfies the hypotheses, and its resolved position
lies in bounds. -/
theorem ball_position_in_bounds_after_wall_collision_witness :
    (0 : Int) ≤ (⟨2, 300, 10, -3, 3⟩ : Ball).radius ∧
    (⟨2, 300, 10, -3, 3⟩ : Ball).radius ≤ 800 ∧
    (Ball.check_wall_collision ⟨2, 300, 10, -3, 3⟩ 800 600).is_below_screen 600 = false ∧
    (0 ≤ (Ball.check_wall_collision ⟨2, 300, 10, -3, 3⟩ 800 600).x ∧
     (Ball.check_wall_collision ⟨2, 300, 10, -3, 3⟩ 800 600).x ≤ 800 ∧
     0 ≤ (Ball.check_wall_collision ⟨2, 300, 10, -3, 3⟩ 800 600).y ∧
     (Ball.check_wall_collision ⟨2, 300, 10, -3, 3⟩ 800 600).y ≤ 600) :=
  ⟨by decide, by decide, by decide,
    ball_position_in_bounds_after_wall_collision ⟨2, 300, 10, -3, 3⟩ 800 600
      (by decide) (by decide) (by decide)⟩

/-- The paddle: center `(x, y)`, `width`, `height`, fixed `speed` step.
Mirrors the non-visual attributes set in `Paddle.__init__`. -/
structure Paddle where
  x : Int
  y : Int
  width : Int
  height : Int
  speed : Int
  deriving Repr, DecidableEq

namespace Paddle

/-- `Paddle.__init__`: the movement step `speed` is fixed at 15. -/
def init (x y width height : Int) : Paddle :=
  { x := x, y := y, width := width, height := height, speed := 15 }

/-- `Paddle.move_left`: step left only if that keeps the paddle on screen. -/
def move_left (p : Paddle) : Paddle :=
  if p.x - p.width / 2 > p.speed then { p with x := p.x - p.speed } else p

/-- `Paddle.move_right(screen_width)`: step right only if that keeps the
paddle on screen. -/
def move_right (p : Paddle) (screen_width : Int) : Paddle :=
  if p.x + p.width / 2 < screen_width - p.speed then { p with x := p.x + p.speed } else p

/-- `Paddle.check_ball_collision(ball)`: the ball's vertical span overlaps
the paddle's vertical band and the ball's center x lies within the paddle's
horizontal span. -/
def check_ball_collision (p : Paddle) (ball : Ball) : Bool :=
  ball.y + ball.radius ≥ p.y - p.height / 2 ∧
  ball.y - ball.radius ≤ p.y + p.height / 2 ∧
  ball.x ≥ p.x - p.width / 2 ∧
  ball.x ≤ p.x + p.width / 2

end Paddle

/-- A paddle movement request, as issued by the arrow keys. -/
inductive PaddleMove where
  | left : PaddleMove
  | right : PaddleMove
  deriving Repr, DecidableEq

/-- Apply one paddle movement request against screen width `sw`. -/
def applyPaddleMove (sw : Int) (p : Paddle) : PaddleMove → Paddle
  | .left => p.move_left
  | .right => p.move_right sw

lemma applyPaddleMove_invariant (sw : Int) (p : Paddle) (m : PaddleMove)
    (hw : p.width = 100) (hs : p.speed = 15) (hsw : sw = 800)
    (h1 : 15 ≤ p.x) (h2 : p.x ≤ 785) :
    (applyPaddleMove sw p m).width = 100 ∧ (applyPaddleMove sw p m).speed = 15 ∧
    15 ≤ (applyPaddleMove sw p m).x ∧ (applyPaddleMove sw p m).x ≤ 785 := by
  cases m with
  | left =>
      simp only [applyPaddleMove, Paddle.move_left, hw, hs]
      split <;> simp_all <;> omega
  | right =>
      simp only [applyPaddleMove, Paddle.move_right, hw, hs, hsw]
      split <;> simp_all <;> omega

lemma paddle_moves_invariant (moves : List PaddleMove) (p : Paddle)
    (hw : p.width = 100) (hs : p.speed = 15)
    (h1 : 15 ≤ p.x) (h2 : p.x ≤ 785) :
    15 ≤ (moves.foldl (applyPaddleMove 800) p).x ∧
    (moves.foldl (applyPaddleMove 800) p).x ≤ 785 := by
  induction moves generalizing p with
  | nil => exact ⟨h1, h2⟩
  | cons m rest ih =>
      obtain ⟨hw', hs', h1', h2'⟩ := applyPaddleMove_invariant 800 p m hw hs rfl h1 h2
      exact ih (applyPaddleMove 800 p m) hw' hs' h1' h2'

/-- C8: starting from the initial paddle (center 400, width 100, step 15)
on the 800-wide screen, every sequence of `move_left` / `move_right` calls
keeps the center x within `[step, screen_width - step] = [15, 785]`; and a
move whose guard fails is a silent no-op, not an error. -/
theorem paddle_x_bounded_and_noop (moves : List PaddleMove) (p : Paddle) :
    (15 ≤ (moves.foldl (applyPaddleMove 800) (Paddle.init 400 550 100 20)).x ∧
     (moves.foldl (applyPaddleMove 800) (Paddle.init 400 550 100 20)).x ≤ 800 - 15) ∧
    (¬ (p.x - p.width / 2 > p.speed) → p.move_left = p) ∧
    (∀ sw : Int, ¬ (p.x + p.width / 2 < sw - p.speed) → p.move_right sw = p) := by
  refine ⟨?_, ?_, ?_⟩
  · have h := paddle_moves_invariant moves (Paddle.init 400 550 100 20) rfl rfl
      (by decide) (by decide)
    exact ⟨h.1, by omega⟩
  · intro h
    simp [Paddle.move_left, h]
  · intro sw h
    simp [Paddle.move_right, h]

/-- Witness for C8: the empty move sequence leaves the initial paddle at
x = 400, inside `[15, 785]`; and at the left edge (x = 55) a further
`move_left` is a no-op. -/
theorem paddle_x_bounded_and_noop_witness :
    (15 ≤ (Paddle.init 400 550 100 20).x ∧ (Paddle.init 400 550 100 20).x ≤ 800 - 15) ∧
    (Paddle.init 55 550 100 20).move_left = Paddle.init 55 550 100 20 :=
  ⟨(paddle_x_bounded_and_noop [] (Paddle.init 55 550 100 20)).1,
   (paddle_x_bounded_and_noop [] (Paddle.init 55 550 100 20)).2.1 (by decide)⟩

/-- A brick: top-left corner `(x, y)`, extent `width × height`, and a
destroyed flag. Mirrors the non-visual attributes of `Brick.__init__`
(the fill color is drawing-only and omitted). -/
structure Brick where
  x : Int
  y : Int
  width : Int
  height : Int
  destroyed : Bool
  deriving Repr, DecidableEq

namespace Brick

/-- `Brick.check_ball_collision(ball)`: false once destroyed; otherwise the
ball's bounding box overlaps the brick rectangle. -/
def check_ball_collision (br : Brick) (ball : Ball) : Bool :=
  if br.destroyed then false
  else
    ball.x + ball.radius ≥ br.x ∧
    ball.x - ball.radius ≤ br.x + br.width ∧
    ball.y + ball.radius ≥ br.y ∧
    ball.y - ball.radius ≤ br.y + br.height

/-- `Brick.destroy`: set the destroyed flag (and undraw) only if not
already destroyed; otherwise do nothing. -/
def destroy (br : Brick) : Brick :=
  if br.destroyed then br else { br with destroyed := true }

/-- `Brick.is_destroyed`. -/
def is_destroyed (br : Brick) : Bool :=
  br.destroyed

end Brick

/-- C5: once a brick is destroyed, calling `destroy` again is a no-op that
raises nothing and leaves `is_destroyed` true, and `check_ball_collision`
returns false for every ball regardless of overlap. -/
theorem brick_destroy_idempotent_and_inert (br : Brick) (h : br.is_destroyed = true) :
    (br.destroy).is_destroyed = true ∧ br.destroy = br ∧
    ∀ ball : Ball, br.check_ball_collision ball = false := by
  simp only [Brick.is_destroyed] at h
  refine ⟨?_, ?_, ?_⟩
  · simp [Brick.destroy, Brick.is_destroyed, h]
  · simp [Brick.destroy, h]
  · intro ball
    simp [Brick.check_ball_collision, h]

/-- Witness for C5: a concrete destroyed brick is inert under `destroy`
and collides with no ball, here checked against an overlapping ball. -/
theorem brick_destroy_idempotent_and_inert_witness :
    ((⟨0, 50, 80, 30, true⟩ : Brick).destroy).is_destroyed = true ∧
    (⟨0, 50, 80, 30, true⟩ : Brick).destroy = ⟨0, 50, 80, 30, true⟩ ∧
    (⟨0, 50, 80, 30, true⟩ : Brick).check_ball_collision ⟨40, 60, 10, 3, 3⟩ = false :=
  ⟨(brick_destroy_idempotent_and_inert ⟨0, 50, 80, 30, true⟩ rfl).1,
   (brick_destroy_idempotent_and_inert ⟨0, 50, 80, 30, true⟩ rfl).2.1,
   (brick_destroy_idempotent_and_inert ⟨0, 50, 80, 30, true⟩ rfl).2.2 ⟨40, 60, 10, 3, 3⟩⟩

/-- Scan one row of bricks, as the inner loop of
`BrickGrid.check_ball_collision`: destroy the first colliding brick and
stop, or report no hit. -/
def brickRowScan (ball : Ball) : List Brick → Bool × List Brick
  | [] => (false, [])
  | br :: rest =>
      if br.check_ball_collision ball then (true, br.destroy :: rest)
      else
        let res := brickRowScan ball rest
        (res.1, br :: res.2)

/-- Scan the rows in order, as the outer loop of
`BrickGrid.check_ball_collision`: stop at the first row with a hit. -/
def brickRowsScan (ball : Ball) : List (List Brick) → Bool × List (List Brick)
  | [] => (false, [])
  | row :: rest =>
      let r := brickRowScan ball row
      if r.1 then (true, r.2 :: rest)
      else
        let res := brickRowsScan ball rest
        (res.1, row :: res.2)

/-- The brick grid: a row-major 2D collection of bricks. -/
structure BrickGrid where
  bricks : List (List Brick)
  deriving Repr, DecidableEq

namespace BrickGrid

/-- `BrickGrid.__init__(rows, cols, brick_width, brick_height, start_x,
start_y, win)`: a fresh `rows × cols` grid of undestroyed bricks
(the per-row colors are drawing-only and omitted). -/
def init (rows cols : Nat) (brick_width brick_height start_x start_y : Int) : BrickGrid :=
  ⟨(List.range rows).map fun row =>
    (List.range cols).map fun col =>
      { x := start_x + col * brick_width, y := start_y + row * brick_height,
        width := brick_width, height := brick_height, destroyed := false }⟩

/-- `BrickGrid.check_ball_collision(ball)`: row-major scan; destroy the
first colliding brick and return `True`, else return `False`. -/
def check_ball_collision (g : BrickGrid) (ball : Ball) : Bool × BrickGrid :=
  let r := brickRowsScan ball g.bricks
  (r.1, ⟨r.2⟩)

/-- `BrickGrid.all_destroyed`: every brick is destroyed. -/
def all_destroyed (g : BrickGrid) : Bool :=
  g.bricks.all fun row => row.all fun br => br.is_destroyed

end BrickGrid

lemma brickRowScan_false (ball : Ball) (row : List Brick)
    (h : (brickRowScan ball row).1 = false) :
    (brickRowScan ball row).2 = row ∧
    ∀ br ∈ row, br.check_ball_collision ball = false := by
  induction row with
  | nil => simp [brickRowScan]
  | cons br rest ih =>
      by_cases hbr : br.check_ball_collision ball = true
      · simp [brickRowScan, hbr] at h
      · rw [Bool.not_eq_true] at hbr
        simp only [brickRowScan, hbr, Bool.false_eq_true, if_false] at h ⊢
        obtain ⟨h2, hall⟩ := ih h
        refine ⟨by rw [h2], ?_⟩
        intro b' hb'
        rw [List.mem_cons] at hb'
        rcases hb' with rfl | hb'
        · exact hbr
        · exact hall b' hb'

lemma brickRowScan_true (ball : Ball) (row : List Brick)
    (h : (brickRowScan ball row).1 = true) :
    ∃ pre br rest, row = pre ++ br :: rest ∧
      (∀ b' ∈ pre, b'.check_ball_collision ball = false) ∧
      br.check_ball_collision ball = true ∧
      (brickRowScan ball row).2 = pre ++ br.destroy :: rest := by
  induction row with
  | nil => simp [brickRowScan] at h
  | cons br rest ih =>
      by_cases hbr : br.check_ball_collision ball = true
      · exact ⟨[], br, rest, by simp, by simp, hbr, by simp [brickRowScan, hbr]⟩
      · rw [Bool.not_eq_true] at hbr
        simp only [brickRowScan, hbr, Bool.false_eq_true, if_false] at h ⊢
        obtain ⟨pre, b', rest', heq, hpre, hb', hres⟩ := ih h
        refine ⟨br :: pre, b', rest', by simp [heq], ?_, hb', by simp [hres]⟩
        intro c hc
        rw [List.mem_cons] at hc
        rcases hc with rfl | hc
        · exact hbr
        · exact hpre c hc

lemma brickRowsScan_false (ball : Ball) (rows : List (List Brick))
    (h : (brickRowsScan ball rows).1 = false) :
    (brickRowsScan ball rows).2 = rows ∧
    ∀ br ∈ rows.flatten, br.check_ball_collision ball = false := by
  induction rows with
  | nil => simp [brickRowsScan]
  | cons row rest ih =>
      by_cases hr : (brickRowScan ball row).1 = true
      · simp [brickRowsScan, hr] at h
      · rw [Bool.not_eq_true] at hr
        simp only [brickRowsScan, hr, Bool.false_eq_true, if_false] at h ⊢
        obtain ⟨h2, hall⟩ := ih h
        obtain ⟨-, hrow⟩ := brickRowScan_false ball row hr
        refine ⟨by rw [h2], ?_⟩
        intro b' hb'
        rw [List.flatten_cons, List.mem_append] at hb'
        rcases hb' with hb' | hb'
        · exact hrow b' hb'
        · exact hall b' hb'

lemma brickRowsScan_true (ball : Ball) (rows : List (List Brick))
    (h : (brickRowsScan ball rows).1 = true) :
    ∃ pre br rest, rows.flatten = pre ++ br :: rest ∧
      (∀ b' ∈ pre, b'.check_ball_collision ball = false) ∧
      br.check_ball_collision ball = true ∧
      ((brickRowsScan ball rows).2).flatten = pre ++ br.destroy :: rest := by
  induction rows with
  | nil => simp [brickRowsScan] at h
  | cons row rest ih =>
      by_cases hr : (brickRowScan ball row).1 = true
      · obtain ⟨pre, br, rest', heq, hpre, hbr, hres⟩ := brickRowScan_true ball row hr
        refine ⟨pre, br, rest' ++ rest.flatten, ?_, hpre, hbr, ?_⟩
        · simp [heq]
        · simp [brickRowsScan, hr, hres]
      · rw [Bool.not_eq_true] at hr
        simp only [brickRowsScan, hr, Bool.false_eq_true, if_false] at h ⊢
        obtain ⟨pre, br, rest', heq, hpre, hbr, hres⟩ := ih h
        obtain ⟨-, hrow⟩ := brickRowScan_false ball row hr
        refine ⟨row ++ pre, br, rest', ?_, ?_, hbr, ?_⟩
        · simp [heq]
        · intro c hc
          rw [List.mem_append] at hc
          rcases hc with hc | hc
          · exact hrow c hc
          · exact hpre c hc
        · simp [hres]

/-- C4: `BrickGrid.check_ball_collision` scans bricks row-major; when no
brick collides it destroys nothing and returns false; when some brick
collides it returns true, every brick before the first colliding one (in
row-major order) does not collide, and the resulting grid replaces exactly
that first colliding brick by its destroyed version, leaving the rest
untouched — so at most one brick is destroyed per call. -/
theorem brickgrid_destroys_first_hit_only (g : BrickGrid) (ball : Ball) :
    ((g.check_ball_collision ball).1 = false ∧ (g.check_ball_collision ball).2 = g ∧
      ∀ br ∈ g.bricks.flatten, br.check_ball_collision ball = false) ∨
    ((g.check_ball_collision ball).1 = true ∧
      ∃ pre br rest, g.bricks.flatten = pre ++ br :: rest ∧
        (∀ b' ∈ pre, b'.check_ball_collision ball = false) ∧
        br.check_ball_collision ball = true ∧
        ((g.check_ball_collision ball).2).bricks.flatten = pre ++ br.destroy :: rest) := by
  by_cases h : (brickRowsScan ball g.bricks).1 = true
  · right
    obtain ⟨pre, br, rest, heq, hpre, hbr, hres⟩ := brickRowsScan_true ball g.bricks h
    exact ⟨h, pre, br, rest, heq, hpre, hbr, hres⟩
  · left
    rw [Bool.not_eq_true] at h
    obtain ⟨h2, hall⟩ := brickRowsScan_false ball g.bricks h
    refine ⟨h, ?_, hall⟩
    simp only [BrickGrid.check_ball_collision, h2]

/-- The game: fixed 800×600 playfield, one ball, one paddle, one brick
grid, the running and game-over flags and the score. Mirrors the
non-visual state set in `Game.__init__` (score text and instruction text
are drawing-only and omitted). -/
structure Game where
  width : Int
  height : Int
  ball : Ball
  paddle : Paddle
  grid : BrickGrid
  running : Bool
  game_over : Bool
  score : Int
  deriving Repr, DecidableEq

namespace Game

/-- `Game.__init__`: the `choice` argument stands for the random draw made
by the fresh ball's constructor. -/
def init (choice : Bool) : Game :=
  { width := 800, height := 600,
    ball := Ball.init 400 300 10 choice,
    paddle := Paddle.init 400 550 100 20,
    grid := BrickGrid.init 5 10 80 30 0 50,
    running := true, game_over := false, score := 0 }

/-- `Game.restart_game`: replace ball, paddle and brick grid by freshly
initialized instances and reset the flags and the score. -/
def restart_game (g : Game) (choice : Bool) : Game :=
  { g with
    ball := Ball.init 400 300 10 choice,
    paddle := Paddle.init 400 550 100 20,
    grid := BrickGrid.init 5 10 80 30 0 50,
    running := true, game_over := false, score := 0 }

/-- `Game.handle_input`: dispatch on the one buffered key event returned
by `checkKey` (the empty string when no key is buffered). -/
def handle_input (g : Game) (key : String) (choice : Bool) : Game :=
  if key = "Left" then { g with paddle := g.paddle.move_left }
  else if key = "Right" then { g with paddle := g.paddle.move_right g.width }
  else if key = "r" then g.restart_game choice
  else if key = "q" then { g with running := false }
  else g

/-- `Game.update_game`: move the ball, resolve wall, paddle and brick
collisions, then check the loss and win conditions, in source order. -/
def update_game (g : Game) : Game :=
  let ball := g.ball.move
  let ball := ball.check_wall_collision g.width g.height
  let ball := if g.paddle.check_ball_collision ball then ball.bounce_vertical else ball
  let hit_grid := g.grid.check_ball_collision ball
  let ball := if hit_grid.1 then ball.bounce_vertical else ball
  let score := if hit_grid.1 then g.score + 10 else g.score
  let game_over := if ball.is_below_screen g.height then true else g.game_over
  let game_over := if (hit_grid.2).all_destroyed then true else game_over
  { g with ball := ball, grid := hit_grid.2, score := score, game_over := game_over }

/-- One iteration of `Game.run`'s main loop: handle input, then update
only when the game-over flag (as left by input handling) is false. -/
def tick (g : Game) (key : String) (choice : Bool) : Game :=
  let g1 := g.handle_input key choice
  if g1.game_over then g1 else g1.update_game

/-- Iterate `tick` over a list of (key, random-choice) frame inputs. -/
def run_ticks (g : Game) (inputs : List (String × Bool)) : Game :=
  inputs.foldl (fun gg kc => gg.tick kc.1 kc.2) g

end Game

/-- Modelled from the spec's tick-order sentence: "move ball". -/
def specMoveBall (g : Game) : Game :=
  { g with ball := g.ball.move }

/-- Modelled from the spec's tick-order sentence: "resolve wall collision". -/
def specWallStep (g : Game) : Game :=
  { g with ball := g.ball.check_wall_collision g.width g.height }

/-- Modelled from the spec's tick-order sentence: "resolve paddle collision
(bounce vertical on hit, no horizontal redirection by ball-paddle X
offset)". -/
def specPaddleStep (g : Game) : Game :=
  if g.paddle.check_ball_collision g.ball then { g with ball := g.ball.bounce_vertical } else g

/-- Modelled from the spec's tick-order sentence: "resolve brick collision
(bounce vertical, +10 score)". -/
def specBrickStep (g : Game) : Game :=
  let r := g.grid.check_ball_collision g.ball
  if r.1 then { g with ball := g.ball.bounce_vertical, grid := r.2, score := g.score + 10 }
  else { g with grid := r.2 }

/-- Modelled from the spec's tick-order sentence: "check loss condition". -/
def specLossStep (g : Game) : Game :=
  if g.ball.is_below_screen g.height then { g with game_over := true } else g

/-- Modelled from the spec's tick-order sentence: "check win condition". -/
def specWinStep (g : Game) : Game :=
  if g.grid.all_destroyed then { g with game_over := true } else g

/-- Modelled from the spec's tick-order sentence: the six update steps in
the claimed order. -/
def specUpdatePipeline (g : Game) : Game :=
  specWinStep (specLossStep (specBrickStep (specPaddleStep (specWallStep (specMoveBall g)))))

/-- Modelled from the spec's tick-order sentence: read one buffered key
event, then run the update pipeline only if `game_over` is false. -/
def specTick (g : Game) (key : String) (choice : Bool) : Game :=
  let g1 := g.handle_input key choice
  if g1.game_over then g1 else specUpdatePipeline g1

lemma update_game_eq_pipeline (g : Game) : g.update_game = specUpdatePipeline g := by
  cases g with
  | mk w h ball paddle grid running go score =>
      simp only [Game.update_game, specUpdatePipeline, specMoveBall, specWallStep,
        specPaddleStep, specBrickStep, specLossStep, specWinStep]
      by_cases hp : paddle.check_ball_collision ((ball.move).check_wall_collision w h) = true <;>
        simp only [hp, Bool.false_eq_true, if_true, if_false, Bool.not_eq_true] <;>
        split <;> split <;> split <;> rfl

/-- C1: each frame of the main loop first reads one buffered key event,
then, only if the game-over flag is false, runs exactly the update order
the spec states: move ball, resolve wall collision, resolve paddle
collision (vertical bounce only), resolve brick collision (vertical bounce
and +10 score), check the loss condition, check the win condition. -/
theorem tick_follows_spec_order (g : Game) (key : String) (choice : Bool) :
    g.tick key choice = specTick g key choice := by
  simp only [Game.tick, specTick, update_game_eq_pipeline]

/-- C9: pressing `r` invokes `restart_game` in every state (game over or
not), and the restart zeroes the score, clears the game-over flag and
replaces ball, paddle and brick grid by freshly initialized instances. -/
theorem restart_key_resets_game (g : Game) (choice : Bool) :
    g.handle_input "r" choice = g.restart_game choice ∧
    (g.restart_game choice).score = 0 ∧
    (g.restart_game choice).game_over = false ∧
    (g.restart_game choice).ball = Ball.init 400 300 10 choice ∧
    (g.restart_game choice).paddle = Paddle.init 400 550 100 20 ∧
    (g.restart_game choice).grid = BrickGrid.init 5 10 80 30 0 50 := by
  refine ⟨?_, rfl, rfl, rfl, rfl, rfl⟩
  simp [Game.handle_input]

/-- C10: every newly created ball has `dy = 3` and `dx` drawn from
`{-3, 3}` by the constructor's random choice; both draws are realizable
and give different velocities, so two games created from identical inputs
can differ from the first frame on. -/
theorem ball_init_random_direction :
    (∀ (x y r : Int) (c : Bool),
      (Ball.init x y r c).dy = 3 ∧
      ((Ball.init x y r c).dx = -3 ∨ (Ball.init x y r c).dx = 3)) ∧
    (Ball.init 400 300 10 false).dx ≠ (Ball.init 400 300 10 true).dx ∧
    (Game.init false).ball.dx ≠ (Game.init true).ball.dx := by
  refine ⟨?_, by decide, by decide⟩
  intro x y r c
  cases c <;> simp [Ball.init]

/-- Number of destroyed bricks in a grid. -/
def numDestroyed (g : BrickGrid) : Nat :=
  g.bricks.flatten.countP fun br => br.is_destroyed

lemma check_ball_collision_true_not_destroyed (br : Brick) (ball : Ball)
    (h : br.check_ball_collision ball = true) : br.destroyed = false := by
  cases hd : br.destroyed
  · rfl
  · simp [Brick.check_ball_collision, hd] at h

lemma update_game_score_and_count (g : Game) :
    g.update_game.score = g.score + 10 * ((numDestroyed g.update_game.grid : Int) - (numDestroyed g.grid : Int)) ∧
    numDestroyed g.grid ≤ numDestroyed g.update_game.grid ∧
    numDestroyed g.update_game.grid ≤ numDestroyed g.grid + 1 := by
  have hgrid : g.update_game.grid =
      (g.grid.check_ball_collision
        (let ball := g.ball.move
         let ball := ball.check_wall_collision g.width g.height
         if g.paddle.check_ball_collision ball then ball.bounce_vertical else ball)).2 := rfl
  set ball := (let ball := g.ball.move
               let ball := ball.check_wall_collision g.width g.height
               if g.paddle.check_ball_collision ball then ball.bounce_vertical else ball) with hball
  have hscore : g.update_game.score =
      if (g.grid.check_ball_collision ball).1 then g.score + 10 else g.score := rfl
  by_cases hhit : (g.grid.check_ball_collision ball).1 = true
  · obtain ⟨pre, br, rest, heq, -, hbr, hres⟩ := brickRowsScan_true ball g.grid.bricks hhit
    have hdes : br.destroyed = false := check_ball_collision_true_not_destroyed br ball hbr
    have hcount : numDestroyed (g.grid.check_ball_collision ball).2 = numDestroyed g.grid + 1 := by
      simp only [numDestroyed, BrickGrid.check_ball_collision]
      rw [hres, heq]
      simp [List.countP_append, List.countP_cons, Brick.is_destroyed, Brick.destroy, hdes]
      omega
    rw [hscore, hgrid, hcount, if_pos hhit]
    push_cast
    refine ⟨by ring, by omega, by omega⟩
  · rw [Bool.not_eq_true] at hhit
    obtain ⟨h2, -⟩ := brickRowsScan_false ball g.grid.bricks hhit
    have hcount : numDestroyed (g.grid.check_ball_collision ball).2 = numDestroyed g.grid := by
      simp only [numDestroyed, BrickGrid.check_ball_collision]
      rw [h2]
    rw [hscore, hgrid, hcount, if_neg (by simp [hhit])]
    refine ⟨by ring, by omega, by omega⟩

lemma handle_input_score_cases (g : Game) (key : String) (choice : Bool) :
    (g.handle_input key choice).score = g.score ∨ (g.handle_input key choice).score = 0 := by
  simp only [Game.handle_input]
  split
  · left; rfl
  · split
    · left; rfl
    · split
      · right; rfl
      · split
        · left; rfl
        · left; rfl

lemma tick_score_nonneg (g : Game) (key : String) (choice : Bool)
    (h : 0 ≤ g.score) : 0 ≤ (g.tick key choice).score := by
  have h1 : 0 ≤ (g.handle_input key choice).score := by
    rcases handle_input_score_cases g key choice with h' | h' <;> omega
  simp only [Game.tick]
  split
  · exact h1
  · obtain ⟨heq, hle, hge⟩ := update_game_score_and_count (g.handle_input key choice)
    have : ((numDestroyed (g.handle_input key choice).update_game.grid : Int) -
        (numDestroyed (g.handle_input key choice).grid : Int)) ≥ 0 := by
      omega
    omega

lemma run_ticks_score_nonneg (inputs : List (String × Bool)) (g : Game)
    (h : 0 ≤ g.score) : 0 ≤ (g.run_ticks inputs).score := by
  induction inputs generalizing g with
  | nil => exact h
  | cons kc rest ih =>
      exact ih (g.tick kc.1 kc.2) (tick_score_nonneg g kc.1 kc.2 h)

/-- C3 (amended): within game updates the score only increases, by exactly
10 per distinct brick destruction (at most one per tick); it stays a
non-negative integer over every input sequence from a fresh game; but
`restart_game` resets it to 0, so across restarts the score is not
monotonic. -/
theorem score_increases_by_ten_per_brick (g : Game) :
    g.score ≤ g.update_game.score ∧
    g.update_game.score = g.score + 10 * ((numDestroyed g.update_game.grid : Int) - (numDestroyed g.grid : Int)) ∧
    numDestroyed g.grid ≤ numDestroyed g.update_game.grid ∧
    numDestroyed g.update_game.grid ≤ numDestroyed g.grid + 1 ∧
    (∀ choice : Bool, (g.restart_game choice).score = 0) ∧
    (∀ (choice : Bool) (inputs : List (String × Bool)),
      0 ≤ ((Game.init choice).run_ticks inputs).score) := by
  obtain ⟨heq, hle, hge⟩ := update_game_score_and_count g
  refine ⟨?_, heq, hle, hge, fun _ => rfl, ?_⟩
  · have : ((numDestroyed g.update_game.grid : Int) - (numDestroyed g.grid : Int)) ≥ 0 := by
      omega
    omega
  · intro choice inputs
    exact run_ticks_score_nonneg inputs (Game.init choice) (by simp [Game.init])

/-- C3 counterexample: "the score only increases over every sequence of
game operations" fails. From a state with one brick left in the ball's
path and score 0, one frame destroys the brick (score 10); on the next
frame the `r` key — a game operation accepted in every state — runs
`restart_game`, which sets the score back to 0: a strict decrease. -/
theorem score_decreases_on_restart_cex :
    ((⟨800, 600, ⟨40, 90, 10, 3, -3⟩, Paddle.init 400 550 100 20,
        ⟨[[⟨0, 50, 80, 30, false⟩]]⟩, true, false, 0⟩ : Game).tick "" false).score = 10 ∧
    ((((⟨800, 600, ⟨40, 90, 10, 3, -3⟩, Paddle.init 400 550 100 20,
        ⟨[[⟨0, 50, 80, 30, false⟩]]⟩, true, false, 0⟩ : Game).tick "" false).tick "r" false).score = 0 ∧
    ((((⟨800, 600, ⟨40, 90, 10, 3, -3⟩, Paddle.init 400 550 100 20,
        ⟨[[⟨0, 50, 80, 30, false⟩]]⟩, true, false, 0⟩ : Game).tick "" false).tick "r" false).score <
      (((⟨800, 600, ⟨40, 90, 10, 3, -3⟩, Paddle.init 400 550 100 20,
        ⟨[[⟨0, 50, 80, 30, false⟩]]⟩, true, false, 0⟩ : Game).tick "" false)).score)) := by
  refine ⟨by decide, by decide, by decide⟩
